import Mathlib

/-!
Shallow embedding of the grocery-manager price aggregation and
availability-monitoring engine.

Sources embedded here:
- `src/adapters/fairprice.py` : `FairPriceAdapter._calculate_unit_price`
  and the unit-price slice of `_parse_product_card`;
- `src/services/price_service.py` : `PriceService.search_all_platforms`,
  `PriceService.compare_prices`, `PriceService.get_price_history`,
  `PriceService.get_price_alerts`;
- `src/services/watchlist_service.py` : the search-matching and
  alert-emission slices of `WatchlistService.check_availability`,
  `WatchlistService._check_alerts`, `WatchlistService.get_weekly_shopping_list`;
- `src/models/watchlist.py` : `WatchlistItem.is_available_anywhere`,
  `WatchlistItem.get_best_deal`.

Python floats are modelled as rationals, timestamps as naturals, Python
strings as `List Char`, `None`-able values as `Option`, and a fallible
adapter call as `Except String`.
-/

namespace Grocery

/-! ### Python string primitives used by the code -/

/-- Python `str.lower` on one ASCII character. -/
def lowerChar (c : Char) : Char :=
  if 65 ≤ c.toNat ∧ c.toNat ≤ 90 then Char.ofNat (c.toNat + 32) else c

/-- Python `str.lower` (ASCII slice, which is all the code relies on). -/
def lowerStr (s : List Char) : List Char := s.map lowerChar

/-- The characters Python `str.strip` and the regex class backslash-s treat
as whitespace (ASCII slice). -/
def isPySpace (c : Char) : Bool :=
  c = ' ' || c = '\t' || c = '\n' || c = '\r' || c.toNat = 11 || c.toNat = 12

/-- Python `str.strip`. -/
def stripStr (s : List Char) : List Char :=
  ((s.dropWhile isPySpace).reverse.dropWhile isPySpace).reverse

/-- Python substring test `needle in hay` (`str.__contains__`). -/
def containsSub : List Char → List Char → Bool
  | n, [] => n.isPrefixOf []
  | n, c :: t => n.isPrefixOf (c :: t) || containsSub n t

/-! ### `FairPriceAdapter._calculate_unit_price` (fairprice.py lines 215-242)

The regex is `(\d+(?:\.\d+)?)\s*(kg|g|l|ml|pcs?|pieces?|pack|each)` applied
with `re.match` (anchored at the start) to the lowercased, stripped size
string.  The embedding parses the two groups with the same alternation
order and greediness as the regex. -/

/-- Numeric value of a digit run, as Python `int` of the digit string. -/
def digitsToNat (ds : List Char) : ℕ :=
  ds.foldl (fun n c => 10 * n + (c.toNat - 48)) 0

/-- Group 1 of the regex: a digit run with an optional fractional part
(the fractional branch needs at least one digit after the dot).  Returns
the parsed quantity (as Python `float(...)` of the captured text) and the
unconsumed remainder. -/
def parseQuantity (s : List Char) : Option (ℚ × List Char) :=
  let ds := s.takeWhile Char.isDigit
  if ds.isEmpty then none
  else
    match s.drop ds.length with
    | c :: r2 =>
      if c = '.' then
        let fs := r2.takeWhile Char.isDigit
        if fs.isEmpty then some ((digitsToNat ds : ℚ), c :: r2)
        else
          some ((digitsToNat ds : ℚ) + (digitsToNat fs : ℚ) / (10 : ℚ) ^ fs.length,
            r2.drop fs.length)
      else some ((digitsToNat ds : ℚ), c :: r2)
    | [] => some ((digitsToNat ds : ℚ), [])

/-- Group 2 of the regex: the unit token, tried in the alternation order
`kg|g|l|ml|pcs?|pieces?|pack|each` with greedy optional `s`. -/
def matchUnit (s : List Char) : Option (List Char) :=
  if List.isPrefixOf "kg".toList s then some "kg".toList
  else if List.isPrefixOf "g".toList s then some "g".toList
  else if List.isPrefixOf "l".toList s then some "l".toList
  else if List.isPrefixOf "ml".toList s then some "ml".toList
  else if List.isPrefixOf "pcs".toList s then some "pcs".toList
  else if List.isPrefixOf "pc".toList s then some "pc".toList
  else if List.isPrefixOf "pieces".toList s then some "pieces".toList
  else if List.isPrefixOf "piece".toList s then some "piece".toList
  else if List.isPrefixOf "pack".toList s then some "pack".toList
  else if List.isPrefixOf "each".toList s then some "each".toList
  else none

/-- `FairPriceAdapter._calculate_unit_price(price, size_str)`. -/
def calculate_unit_price (price : ℚ) (sizeStr : List Char) : Option ℚ :=
  let s := stripStr (lowerStr sizeStr)
  match parseQuantity s with
  | none => none
  | some (q, rest) =>
    match matchUnit (rest.dropWhile isPySpace) with
    | none => none
    | some u =>
      if q = 0 then none
      else if u = "g".toList then some (price / q * 1000)
      else if u = "kg".toList then some (price / q)
      else if u = "ml".toList then some (price / q * 1000)
      else if u = "l".toList then some (price / q)
      else if u = "pc".toList ∨ u = "pcs".toList ∨ u = "piece".toList ∨
          u = "pieces".toList ∨ u = "pack".toList ∨ u = "each".toList then
        some (price / q)
      else none

/-! ### Listings and the aggregator (price_service.py) -/

/-- `adapters.base.Product` (the fields the aggregation and watchlist logic
reads).  Defaults mirror the Python dataclass defaults. -/
structure Product where
  productId : String := ""
  name : List Char := []
  price : ℚ := 0
  unitPrice : Option ℚ := none
  unitSize : Option (List Char) := none
  inStock : Bool := true
deriving DecidableEq, Repr

/-- `PriceService.search_all_platforms` (price_service.py lines 24-40): one
adapter call per registered platform, in registration order; an adapter
call either returns a product batch or raises, and a raising platform is
mapped to an empty batch (the exception is only printed). -/
def search_all_platforms (outcomes : List (String × Except String (List Product))) :
    List (String × List Product) :=
  outcomes.map (fun pr =>
    (pr.1, match pr.2 with | Except.ok ps => ps | Except.error _ => []))

/-- One element of the list built by `PriceService.compare_prices`:
`{"platform": ..., "product": ..., "price": ..., "unit_price": ...}`. -/
structure CompareRecord where
  platform : String
  product : Product
  price : ℚ
  unitPrice : Option ℚ
deriving DecidableEq, Repr

/-- The flattening loop of `compare_prices` (lines 51-59), in platform
registration order. -/
def flatten_results (results : List (String × List Product)) : List CompareRecord :=
  results.flatMap (fun pr => pr.2.map (fun x => ⟨pr.1, x, x.price, x.unitPrice⟩))

/-- The sort key `lambda x: x.get("unit_price") or x["price"]` of
`compare_prices` (line 63): Python `or` falls through to the raw price when
`unit_price` is `None` or `0.0`. -/
def sort_key (r : CompareRecord) : ℚ :=
  match r.unitPrice with
  | some u => if u = 0 then r.price else u
  | none => r.price

/-- The comparison relation realized by `list.sort(key=sort_key)`. -/
def keyLe (a b : CompareRecord) : Prop := sort_key a ≤ sort_key b

instance : DecidableRel keyLe :=
  fun a b => inferInstanceAs (Decidable (sort_key a ≤ sort_key b))

instance : IsTotal CompareRecord keyLe := ⟨fun a b => le_total (sort_key a) (sort_key b)⟩

instance : IsTrans CompareRecord keyLe := ⟨fun _ _ _ hab hbc => le_trans hab hbc⟩

/-- `PriceService.compare_prices` (lines 42-66): flatten all batches, then a
single stable ascending sort by `unit_price or price` (Python `list.sort`
is stable, as is `List.insertionSort`). -/
def compare_prices (outcomes : List (String × Except String (List Product))) :
    List CompareRecord :=
  List.insertionSort keyLe (flatten_results (search_all_platforms outcomes))

/-! ### Watchlist availability checking (watchlist_service.py) -/

/-- One per-platform entry of the availability map built by
`WatchlistService.check_availability` (and stored as the snapshot): the
fields the diff and best-deal logic reads. -/
structure Status where
  inStock : Bool := false
  price : Option ℚ := none
  error : Option String := none
deriving DecidableEq, Repr

/-- Python truthiness of an optional price (`None` and `0.0` are falsy). -/
def truthy (o : Option ℚ) : Option ℚ :=
  match o with
  | some p => if p = 0 then none else some p
  | none => none

/-- The search-matching loop of `check_availability` (lines 186-194): the
first returned listing whose lowercased name contains the lowercased brand
as a substring; a `None` (or empty) brand lowers to the empty string. -/
def find_matching (brand : Option (List Char)) (products : List Product) : Option Product :=
  let brandLower := lowerStr (match brand with | some b => b | none => [])
  products.find? (fun x => containsSub brandLower (lowerStr x.name))

/-- The per-platform result entry of `check_availability` (lines 180-221):
a successful search either finds a matching product (entry with its stock
flag and price) or none (`Product not found`, not in stock); a raising
probe degrades to a not-in-stock entry carrying the error string. -/
def status_of_probe (brand : Option (List Char)) (r : Except String (List Product)) : Status :=
  match r with
  | Except.error e => { inStock := false, price := none, error := some e }
  | Except.ok prods =>
    match find_matching brand prods with
    | some f => { inStock := f.inStock, price := some f.price, error := none }
    | none => { inStock := false, price := none, error := none }

/-- The full per-platform result map of the search path of
`check_availability`: every probed platform gets exactly one entry. -/
def check_availability_results (brand : Option (List Char))
    (probes : List (String × Except String (List Product))) : List (String × Status) :=
  probes.map (fun pr => (pr.1, status_of_probe brand pr.2))

/-- The alert-relevant item configuration (watchlist.py columns
`notify_on_restock`, `notify_on_price_drop`, `price_drop_threshold`). -/
structure ItemCfg where
  notifyOnRestock : Bool := true
  notifyOnPriceDrop : Bool := true
  priceDropThreshold : ℚ := 1/10
deriving DecidableEq, Repr

/-- Alert type (`WatchlistAlert.alert_type`); `_check_alerts` only ever
creates `restock` and `price_drop` alerts. -/
inductive AlertType
  | restock
  | priceDrop
deriving DecidableEq, Repr

/-- `models.watchlist.WatchlistAlert` (the fields `_check_alerts` sets). -/
structure Alert where
  type : AlertType
  platform : String
  oldPrice : Option ℚ := none
  newPrice : Option ℚ := none
deriving DecidableEq, Repr

/-- Python `dict.get(platform, {})` on the old snapshot: a missing platform
behaves as an empty entry (falsy `in_stock`, falsy `price`). -/
def lookup_status (p : String) (old : List (String × Status)) : Status :=
  (old.lookup p).getD {}

/-- One iteration of the `_check_alerts` loop (lines 252-300) for platform
`p` with new entry `s`: a restock alert (gated on `notify_on_restock`)
then a price-drop alert (both prices truthy, relative drop at least the
item threshold, gated on `notify_on_price_drop`). -/
def platform_alerts (cfg : ItemCfg) (old : List (String × Status)) (p : String) (s : Status) :
    List Alert :=
  let o := lookup_status p old
  (if s.inStock && !o.inStock then
    (if cfg.notifyOnRestock then [{ type := AlertType.restock, platform := p, newPrice := s.price }] else [])
  else []) ++
  (match truthy s.price, truthy o.price with
   | some np, some op =>
     if (op - np) / op ≥ cfg.priceDropThreshold then
       (if cfg.notifyOnPriceDrop then
         [{ type := AlertType.priceDrop, platform := p, oldPrice := some op, newPrice := some np }]
       else [])
     else []
   | _, _ => [])

/-- `WatchlistService._check_alerts` (lines 245-300): iterate the new map in
order, emitting per-platform alerts against the old snapshot. -/
def check_alerts (cfg : ItemCfg) (old new : List (String × Status)) : List Alert :=
  new.flatMap (fun pr => platform_alerts cfg old pr.1 pr.2)

/-- The `available` filter of `check_availability` (lines 229-232): entries
whose `in_stock` and `price` are both truthy. -/
def available_entries (new : List (String × Status)) : List (String × Status) :=
  new.filter (fun pr => pr.2.inStock && (truthy pr.2.price).isSome)

/-- The alerts actually emitted by one `check_availability` cycle (lines
233-240): `_check_alerts` runs only inside `if available:`, i.e. only when
some platform is in stock with a truthy price. -/
def cycle_alerts (cfg : ItemCfg) (old new : List (String × Status)) : List Alert :=
  if available_entries new = [] then [] else check_alerts cfg old new

/-- Alerts produced by two check cycles of the same item executed one after
the other: the second cycle diffs against the snapshot written by the
first (`item.availability_status = results` on line 225). -/
def serial_cycles_alerts (cfg : ItemCfg) (s0 r1 r2 : List (String × Status)) : List Alert :=
  cycle_alerts cfg s0 r1 ++ cycle_alerts cfg r1 r2

/-- Alerts produced by two overlapping check cycles of the same item whose
baseline reads both happen before either snapshot write (realizable: each
trigger runs `check_availability` with its own database session, so both
sessions load the item - and with it the stored snapshot - before either
commits; nothing in the code serializes cycles per item). -/
def raced_cycles_alerts (cfg : ItemCfg) (s0 r1 r2 : List (String × Status)) : List Alert :=
  cycle_alerts cfg s0 r1 ++ cycle_alerts cfg s0 r2

/-! ### Weekly recommendations (watchlist_service.py lines 314-352,
watchlist.py lines 64-98) -/

/-- The recommendation-relevant slice of a `WatchlistItem`. -/
structure WItem where
  availability : List (String × Status) := []
  maxPrice : Option ℚ := none
  weeklyTargetQty : ℕ := 2
deriving DecidableEq, Repr

/-- `WatchlistItem.is_available_anywhere` (watchlist.py lines 64-72). -/
def is_available_anywhere (a : List (String × Status)) : Bool :=
  a.any (fun pr => pr.2.inStock)

/-- Python `min(available, key=...)`: the first element with the minimal
price (later elements replace only on strictly smaller key). -/
def min_by_price (x : String × ℚ) (xs : List (String × ℚ)) : String × ℚ :=
  xs.foldl (fun cur y => if y.2 < cur.2 then y else cur) x

/-- `WatchlistItem.get_best_deal` (watchlist.py lines 84-98): filter to
in-stock entries with truthy price, return the first cheapest. -/
def get_best_deal (a : List (String × Status)) : Option (String × ℚ) :=
  let avail := a.filterMap (fun pr =>
    if pr.2.inStock then
      match truthy pr.2.price with
      | some v => some (pr.1, v)
      | none => none
    else none)
  match avail with
  | [] => none
  | x :: xs => some (min_by_price x xs)

/-- Recommendation status (`get_weekly_shopping_list`). -/
inductive RecStatus
  | available
  | overBudget
  | unavailable
deriving DecidableEq, Repr

/-- One recommendation dict of `get_weekly_shopping_list` (the fields the
claims read; `quantity`/`total` are only populated on the `available`
branch). -/
structure Rec where
  status : RecStatus
  platform : Option String := none
  price : Option ℚ := none
  quantity : Option ℕ := none
  total : Option ℚ := none
deriving DecidableEq, Repr

/-- The `max_price` budget test of `get_weekly_shopping_list` (line 332):
`if item.max_price and best_deal["price"] > item.max_price` - a `None` or
zero `max_price` is falsy and disables the budget check. -/
def over_budget (maxPrice : Option ℚ) (price : ℚ) : Bool :=
  match maxPrice with
  | some m => if m = 0 then false else decide (price > m)
  | none => false

/-- The recommendations `get_weekly_shopping_list` (lines 319-350) appends
for one active item: note that an item available somewhere whose best deal
is `None` (every in-stock entry has a falsy price) appends nothing. -/
def recommendations_for (it : WItem) : List Rec :=
  if !is_available_anywhere it.availability then
    [{ status := RecStatus.unavailable }]
  else
    match get_best_deal it.availability with
    | none => []
    | some bd =>
      if over_budget it.maxPrice bd.2 then
        [{ status := RecStatus.overBudget, platform := some bd.1, price := some bd.2 }]
      else
        [{ status := RecStatus.available, platform := some bd.1, price := some bd.2,
           quantity := some it.weeklyTargetQty,
           total := some (bd.2 * (it.weeklyTargetQty : ℚ)) }]

/-- `WatchlistService.get_weekly_shopping_list` over the active items. -/
def get_weekly_shopping_list (items : List WItem) : List Rec :=
  items.flatMap recommendations_for

/-! ### Price history and drop detection (price_service.py lines 96-189) -/

/-- `models.price.PriceRecord` (the fields drop detection reads). -/
structure PriceRecord where
  platform : String
  price : ℚ
  scrapedAt : ℕ
deriving DecidableEq, Repr

/-- Newest-first order on history rows (`order_by(scraped_at.desc())`). -/
def newerLe (a b : PriceRecord) : Prop := b.scrapedAt ≤ a.scrapedAt

instance : DecidableRel newerLe :=
  fun a b => inferInstanceAs (Decidable (b.scrapedAt ≤ a.scrapedAt))

instance : IsTotal PriceRecord newerLe := ⟨fun a b => Nat.le_total b.scrapedAt a.scrapedAt⟩

instance : IsTrans PriceRecord newerLe := ⟨fun _ _ _ hab hbc => le_trans hbc hab⟩

/-- `PriceService.get_price_history` (lines 96-118) for one item: rows not
older than the cutoff, newest first. -/
def get_price_history (cutoff : ℕ) (rows : List PriceRecord) : List PriceRecord :=
  List.insertionSort newerLe (rows.filter (fun r => cutoff ≤ r.scrapedAt))

/-- One drop-alert dict of `get_price_alerts` (lines 180-187). -/
structure DropAlert where
  platform : String
  currentPrice : ℚ
  previousPrice : ℚ
  changePercent : ℚ
deriving DecidableEq, Repr

/-- The per-item body of `PriceService.get_price_alerts` (lines 170-187):
with at least two history rows, compare the newest two (whatever their
platforms); guard `previous.price > 0`; report when the percent change is
at most minus the threshold percent. -/
def price_drop_alert (thresholdPercent : ℚ) (history : List PriceRecord) : Option DropAlert :=
  match history with
  | latest :: previous :: _ =>
    if 0 < previous.price then
      let change := (latest.price - previous.price) / previous.price * 100
      if change ≤ -thresholdPercent then
        some { platform := latest.platform, currentPrice := latest.price,
               previousPrice := previous.price, changePercent := change }
      else none
    else none
  | _ => none

/-- Drop detection as `task_check_promotions` invokes it: the sorted
in-window history, then the two-newest comparison. -/
def get_price_alerts (thresholdPercent : ℚ) (cutoff : ℕ) (rows : List PriceRecord) :
    Option DropAlert :=
  price_drop_alert thresholdPercent (get_price_history cutoff rows)

/-! ### Concrete fixtures used in the instance theorems -/

/-- A listing with a resolvable unit price of 5 and raw price 10. -/
def prodA : Product := { productId := "a1", name := "itemA".toList, price := 10, unitPrice := some 5 }

/-- A listing with only a raw price of 4 (no unit price). -/
def prodB : Product := { productId := "b1", name := "itemB".toList, price := 4 }

/-- A listing reaching comparison without a precomputed unit price but with
a normalizable size text. -/
def prodC : Product :=
  { productId := "c1", name := "itemC".toList, price := 20, unitSize := some ("500g".toList) }

/-- Old snapshot: A carries price 10 (in stock). -/
def snapOldTen : List (String × Status) := [("A", { inStock := true, price := some 10 })]

/-- New snapshot: A dropped to price 5 but went out of stock. -/
def snapNewFiveOOS : List (String × Status) := [("A", { inStock := false, price := some 5 })]

/-- Old snapshot: A absent from stock, no price. -/
def snapAOut : List (String × Status) := [("A", {})]

/-- New snapshot: A restocked at price 12. -/
def snapAIn12 : List (String × Status) := [("A", { inStock := true, price := some 12 })]

/-- A watchlist item that is in stock somewhere, but with no price on any
in-stock platform. -/
def itemStockNoPrice : WItem := { availability := [("A", { inStock := true })], maxPrice := some 10 }

/-- History: $10 at time 1, then $8.50 at time 2 (same source). -/
def rowsDrop15 : List PriceRecord :=
  [{ platform := "A", price := 10, scrapedAt := 1 }, { platform := "A", price := 17/2, scrapedAt := 2 }]

/-- History: $10 at time 1, then $9.60 at time 2 (same source). -/
def rowsDrop4 : List PriceRecord :=
  [{ platform := "A", price := 10, scrapedAt := 1 }, { platform := "A", price := 48/5, scrapedAt := 2 }]

/-- New snapshot: A in stock at the dropped price 5. -/
def snapAIn5 : List (String × Status) := [("A", { inStock := true, price := some 5 })]

/-- Predicate selecting the price-drop alerts of one platform. -/
def is_drop_for (p : String) (a : Alert) : Bool :=
  decide (a.type = AlertType.priceDrop ∧ a.platform = p)

/-! ## Theorems -/

/-- The empty needle is a substring of every string (Python semantics of an empty string with the containment operator). -/
theorem containsSub_nil_left (h : List Char) : containsSub [] h = true := by
  cases h <;> simp [containsSub, List.isPrefixOf]

/-- With an absent brand, the search-matching predicate holds of every listing, so the first listing is selected. -/
theorem find_matching_empty_none (prods : List Product) :
    find_matching none prods = prods.head? := by
  cases prods with
  | nil => rfl
  | cons x xs =>
    simp [find_matching, lowerStr, List.find?_cons_of_pos, containsSub_nil_left]

/-- Every alert emitted by one iteration of the alert loop carries the platform tag of that iteration. -/
theorem platform_alerts_platform (cfg : ItemCfg) (old : List (String × Status)) (q : String)
    (t : Status) (a : Alert) (ha : a ∈ platform_alerts cfg old q t) : a.platform = q := by
  simp only [platform_alerts, List.mem_append] at ha
  rcases ha with h | h <;>
    · repeat split at h
      all_goals simp_all

/-- Alerts of a different platform never pass the price-drop filter for platform p. -/
theorem filter_drop_ne (cfg : ItemCfg) (old : List (String × Status)) (q : String)
    (t : Status) (p : String) (hqp : q ≠ p) :
    (platform_alerts cfg old q t).filter (is_drop_for p) = [] := by
  rw [List.filter_eq_nil_iff]
  intro a ha
  have := platform_alerts_platform cfg old q t a ha
  simp [is_drop_for, this, hqp]

/-- When both prices are truthy, the relative drop reaches the threshold, and notification is on, one iteration of the alert loop emits exactly one price-drop alert for that platform. -/
theorem filter_drop_fired (cfg : ItemCfg) (old : List (String × Status)) (p : String)
    (s o : Status) (np op : ℚ)
    (hsp : s.price = some np) (hnp : np ≠ 0)
    (hold : List.lookup p old = some o) (hop : o.price = some op) (hopz : op ≠ 0)
    (hcond : (op - np) / op ≥ cfg.priceDropThreshold)
    (hnotify : cfg.notifyOnPriceDrop = true) :
    (platform_alerts cfg old p s).filter (is_drop_for p) =
      [{ type := AlertType.priceDrop, platform := p, oldPrice := some op, newPrice := some np }] := by
  simp only [platform_alerts, lookup_status, hold, Option.getD_some, hsp, hop, truthy,
    hnp, hopz, if_false, hnotify, hcond, ge_iff_le, if_true, List.filter_append]
  by_cases hb : (s.inStock && !o.inStock) = true <;>
    simp [hb, is_drop_for]

/-- A diff over platforms all different from p contributes no price-drop alert for p. -/
theorem check_alerts_drop_none (cfg : ItemCfg) (old : List (String × Status)) (p : String) :
    ∀ l : List (String × Status), (∀ x ∈ l, x.1 ≠ p) →
      (check_alerts cfg old l).filter (is_drop_for p) = [] := by
  intro l
  induction l with
  | nil => intro _; rfl
  | cons hd tl ih =>
    intro hne
    rw [check_alerts, List.flatMap_cons, List.filter_append]
    rw [show (tl.flatMap fun pr => platform_alerts cfg old pr.1 pr.2) = check_alerts cfg old tl from rfl]
    rw [filter_drop_ne cfg old hd.1 hd.2 p (hne hd (List.mem_cons_self hd tl)),
      ih (fun x hx => hne x (List.mem_cons_of_mem hd hx))]
    rfl

/-- Under duplicate-free platform keys, the whole diff emits exactly one price-drop alert for the one platform whose iteration fires one. -/
theorem check_alerts_drop_count (cfg : ItemCfg) (old : List (String × Status)) (p : String)
    (s : Status) (d : Alert) :
    ∀ l : List (String × Status), (l.map Prod.fst).Nodup → (p, s) ∈ l →
      (platform_alerts cfg old p s).filter (is_drop_for p) = [d] →
      ((check_alerts cfg old l).filter (is_drop_for p)).length = 1 := by
  intro l
  induction l with
  | nil => intro _ h; exact absurd h (List.not_mem_nil _)
  | cons hd tl ih =>
    intro hnodup hmem hfired
    rw [check_alerts, List.flatMap_cons, List.filter_append,
      show (tl.flatMap fun pr => platform_alerts cfg old pr.1 pr.2) = check_alerts cfg old tl
        from rfl, List.length_append]
    rw [List.map_cons, List.nodup_cons] at hnodup
    rcases List.mem_cons.mp hmem with heq | hmem2
    · subst heq
      have htl : (check_alerts cfg old tl).filter (is_drop_for p) = [] := by
        apply check_alerts_drop_none
        intro x hx hxp
        exact hnodup.1 (hxp ▸ (List.mem_map.mpr ⟨x, hx, rfl⟩) : p ∈ tl.map Prod.fst)
      rw [show ((p, s).1 : String) = p from rfl, show ((p, s).2 : Status) = s from rfl,
        hfired, htl]
      rfl
    · have hne : hd.1 ≠ p := by
        intro hh
        exact hnodup.1 (hh ▸ List.mem_map.mpr ⟨(p, s), hmem2, rfl⟩)
      rw [filter_drop_ne cfg old hd.1 hd.2 p hne, ih hnodup.2 hmem2 hfired]
      rfl

/-- Looking up the key of an entry of a duplicate-free association list returns that entry. -/
theorem lookup_self_of_nodup :
    ∀ S : List (String × Status), (S.map Prod.fst).Nodup →
      ∀ x ∈ S, S.lookup x.1 = some x.2 := by
  intro S
  induction S with
  | nil => intro _ x hx; exact absurd hx (List.not_mem_nil x)
  | cons hd tl ih =>
    intro hnodup x hx
    rw [List.map_cons, List.nodup_cons] at hnodup
    rcases List.mem_cons.mp hx with heq | hmem
    · subst heq
      simp [List.lookup]
    · have hne : x.1 ≠ hd.1 := by
        intro hh
        exact hnodup.1 (hh ▸ List.mem_map.mpr ⟨x, hmem, rfl⟩)
      have hbe : (x.1 == hd.1) = false := beq_eq_false_iff_ne.mpr hne
      simp [List.lookup, hbe]
      exact ih hnodup.2 x hmem

/-- Diffing a platform entry against itself yields no alert when the drop threshold is positive. -/
theorem platform_alerts_self (cfg : ItemCfg) (S : List (String × Status)) (p : String)
    (s : Status) (hth : 0 < cfg.priceDropThreshold) (h : List.lookup p S = some s) :
    platform_alerts cfg S p s = [] := by
  simp only [platform_alerts, lookup_status, h, Option.getD_some]
  rw [List.append_eq_nil]
  constructor
  · simp
  · cases hsp : truthy s.price <;> simp [hsp]
    intro hge
    exact absurd hge (not_le.mpr hth)

/-- The budget test of the recommendation generator holds exactly when `max_price` is present, nonzero, and strictly below the best price. -/
theorem over_budget_iff (mp : Option ℚ) (pr : ℚ) :
    over_budget mp pr = true ↔ ∃ m, mp = some m ∧ m ≠ 0 ∧ m < pr := by
  cases mp with
  | none => simp [over_budget]
  | some m =>
    by_cases hm : m = 0
    · subst hm
      simp [over_budget]
    · simp [over_budget, hm]

/-- A best deal exists only when some platform is in stock. -/
theorem best_deal_some_available (a : List (String × Status)) (bd : String × ℚ)
    (h : get_best_deal a = some bd) : is_available_anywhere a = true := by
  rw [get_best_deal] at h
  rcases havail : a.filterMap (fun pr =>
      if pr.2.inStock then
        match truthy pr.2.price with
        | some v => some (pr.1, v)
        | none => none
      else none) with _ | ⟨x, xs⟩
  · rw [havail] at h
    exact absurd h (by simp)
  · have hx : x ∈ a.filterMap _ := havail ▸ List.mem_cons_self x xs
    obtain ⟨pr, hpr, hf⟩ := List.mem_filterMap.mp hx
    rw [is_available_anywhere, List.any_eq_true]
    refine ⟨pr, hpr, ?_⟩
    by_contra hns
    rw [Bool.not_eq_true] at hns
    rw [if_neg (by simp [hns])] at hf
    exact Option.noConfusion hf

/-- C1 counterexample: for source A returning a listing with unit price 5 and source B returning a listing with only raw price 4, `compare_prices` places B first, not A: the code sorts by the single mixed key `unit_price or price`, so there is no unit-priced-first segment. -/
theorem c1_counterexample :
    prodA.unitPrice = some 5 ∧ prodB.unitPrice = none ∧ prodB.price = 4 ∧
    compare_prices [("A", Except.ok [prodA]), ("B", Except.ok [prodB])] =
      [⟨"B", prodB, 4, none⟩, ⟨"A", prodA, 10, some 5⟩] := by decide

/-- C1 amended: the list returned by `compare_prices` is a permutation of the flattened per-source results sorted ascending by one mixed key - the unit price when present and nonzero, otherwise the raw price - so unit-priced and raw-priced records interleave in one ordering rather than forming two segments. -/
theorem c1_amended (outcomes : List (String × Except String (List Product))) :
    (compare_prices outcomes).Perm (flatten_results (search_all_platforms outcomes)) ∧
    List.Sorted keyLe (compare_prices outcomes) :=
  ⟨List.perm_insertionSort keyLe _, List.sorted_insertionSort keyLe _⟩

/-- C2 counterexample: a listing that reaches comparison without a precomputed unit price but with normalizable size text "500g" and price 20 is keyed by its raw price 20, although the normalizer resolves to 40: `compare_prices` does not apply the normalizer. -/
theorem c2_counterexample :
    prodC.unitPrice = none ∧ prodC.unitSize = some ("500g".toList) ∧
    calculate_unit_price prodC.price ("500g".toList) = some 40 ∧
    compare_prices [("C", Except.ok [prodC])] = [⟨"C", prodC, 20, none⟩] ∧
    sort_key ⟨"C", prodC, 20, none⟩ = 20 ∧ (20 : ℚ) ≠ 40 := by
  refine ⟨by decide, by decide, ?_, by decide, by decide, by norm_num⟩
  simp +decide [prodC, calculate_unit_price, parseQuantity, matchUnit, stripStr,
    lowerStr, lowerChar, isPySpace, digitsToNat]
  norm_num

/-- C2 amended: `compare_prices` applies no normalization at comparison time: every record carries the price and unit price of its product unchanged from ingestion, and a record lacking a precomputed unit price is keyed by its raw price. -/
theorem c2_amended (outcomes : List (String × Except String (List Product)))
    (r : CompareRecord) (hr : r ∈ compare_prices outcomes) :
    r.price = r.product.price ∧ r.unitPrice = r.product.unitPrice ∧
    (r.unitPrice = none → sort_key r = r.product.price) := by
  rw [compare_prices, List.mem_insertionSort] at hr
  simp only [flatten_results, List.mem_flatMap, List.mem_map] at hr
  obtain ⟨pr, _, x, _, rfl⟩ := hr
  refine ⟨rfl, rfl, ?_⟩
  intro h
  replace h : x.unitPrice = none := h
  simp only [sort_key, h]

/-- C2 witness: the amended theorem applied to a concrete one-source comparison. -/
theorem c2_amended_witness :
    (⟨"C", prodC, 20, none⟩ : CompareRecord).price = prodC.price ∧
    (⟨"C", prodC, 20, none⟩ : CompareRecord).unitPrice = prodC.unitPrice ∧
    ((⟨"C", prodC, 20, none⟩ : CompareRecord).unitPrice = none →
      sort_key ⟨"C", prodC, 20, none⟩ = prodC.price) :=
  c2_amended [("C", Except.ok [prodC])] ⟨"C", prodC, 20, none⟩ (by decide)

/-- C3 counterexample: with default flags and threshold, a 50 percent price drop on source A is swallowed when A goes out of stock, because `check_availability` only runs the diff when some source is in stock with a price - contradicting "irrespective of whether any source is currently in stock". -/
theorem c3_counterexample :
    ((10 : ℚ) - 5) / 10 ≥ ({} : ItemCfg).priceDropThreshold ∧
    ({} : ItemCfg).notifyOnPriceDrop = true ∧
    (snapOldTen.lookup "A").map Status.price = some (some 10) ∧
    (snapNewFiveOOS.lookup "A").map Status.price = some (some 5) ∧
    cycle_alerts {} snapOldTen snapNewFiveOOS = [] := by
  refine ⟨by norm_num [show ({} : ItemCfg).priceDropThreshold = 1/10 from rfl], rfl,
    by decide, by decide, by decide⟩

/-- C3 amended: in a check cycle whose new snapshot has some in-stock source with a truthy price, for a source whose old and new entries both carry a nonzero price with a relative drop at least the threshold and `notify_on_price_drop` set, exactly one price-drop alert for that source is created. -/
theorem c3_amended (cfg : ItemCfg) (old new : List (String × Status)) (p : String)
    (s o : Status) (np op : ℚ)
    (hkeys : (new.map Prod.fst).Nodup) (hmem : (p, s) ∈ new)
    (hsp : s.price = some np) (hnp : np ≠ 0)
    (hold : List.lookup p old = some o) (hop : o.price = some op) (hopz : op ≠ 0)
    (hcond : (op - np) / op ≥ cfg.priceDropThreshold)
    (hnotify : cfg.notifyOnPriceDrop = true)
    (havail : available_entries new ≠ []) :
    ((cycle_alerts cfg old new).filter (is_drop_for p)).length = 1 := by
  rw [cycle_alerts, if_neg havail]
  exact check_alerts_drop_count cfg old p s _ new hkeys hmem
    (filter_drop_fired cfg old p s o np op hsp hnp hold hop hopz hcond hnotify)

/-- C3 witness: the amended theorem applied to the concrete 10-to-5 drop with A in stock. -/
theorem c3_amended_witness :
    ((cycle_alerts {} snapOldTen snapAIn5).filter (is_drop_for "A")).length = 1 :=
  c3_amended {} snapOldTen snapAIn5 "A" { inStock := true, price := some 5 }
    { inStock := true, price := some 10 } 5 10 (by decide) (by decide) rfl (by norm_num)
    (by decide) rfl (by norm_num)
    (by norm_num [show ({} : ItemCfg).priceDropThreshold = 1/10 from rfl]) rfl (by decide)

/-- C4 counterexample: `search_all_platforms` maps a faulting source to an empty product list, producing output identical to that for a source that succeeded with zero results - the returned value carries no per-source fault record. -/
theorem c4_counterexample :
    search_all_platforms [("a", Except.error "boom"), ("b", Except.ok [prodA])] =
      [("a", []), ("b", [prodA])] ∧
    search_all_platforms [("a", Except.ok []), ("b", Except.ok [prodA])] =
      search_all_platforms [("a", Except.error "boom"), ("b", Except.ok [prodA])] := by decide

/-- C4 amended: a faulting source degrades to an empty entry in `search_all_platforms` (no fault record), every product of every successful source still appears in `compare_prices`, and `check_availability` maps a faulting source to a not-in-stock entry carrying the error string; no subset of faulting sources removes a successful source’s contribution. -/
theorem c4_amended (outcomes probes : List (String × Except String (List Product)))
    (brand : Option (List Char)) (p e : String) (ps : List Product) (x : Product) :
    ((p, Except.error e) ∈ outcomes → (p, ([] : List Product)) ∈ search_all_platforms outcomes) ∧
    ((p, Except.ok ps) ∈ outcomes → x ∈ ps →
      (⟨p, x, x.price, x.unitPrice⟩ : CompareRecord) ∈ compare_prices outcomes) ∧
    ((p, Except.error e) ∈ probes →
      (p, ({ inStock := false, price := none, error := some e } : Status)) ∈
        check_availability_results brand probes) := by
  refine ⟨?_, ?_, ?_⟩
  · exact fun h => List.mem_map.mpr ⟨(p, Except.error e), h, rfl⟩
  · intro h hx
    rw [compare_prices, List.mem_insertionSort]
    simp only [flatten_results]
    exact List.mem_flatMap.mpr
      ⟨(p, ps), List.mem_map.mpr ⟨(p, Except.ok ps), h, rfl⟩, List.mem_map.mpr ⟨x, hx, rfl⟩⟩
  · exact fun h => List.mem_map.mpr ⟨(p, Except.error e), h, rfl⟩

/-- C4 witness: the amended theorem applied to one faulting and one successful source. -/
theorem c4_amended_witness :
    ("a", ([] : List Product)) ∈
      search_all_platforms [("a", Except.error "x"), ("b", Except.ok [prodA])] ∧
    (⟨"b", prodA, 10, some 5⟩ : CompareRecord) ∈
      compare_prices [("a", Except.error "x"), ("b", Except.ok [prodA])] ∧
    ("a", ({ inStock := false, price := none, error := some "x" } : Status)) ∈
      check_availability_results none [("a", Except.error "x"), ("b", Except.ok [prodA])] := by
  refine ⟨(c4_amended _ [] none "a" "x" [] prodA).1 (by simp),
    (c4_amended _ [] none "b" "x" [prodA] prodA).2.1 (by simp) (by simp),
    (c4_amended [] _ none "a" "x" [] prodA).2.2 (by simp)⟩

/-- C5: with at least two in-window history rows, `get_price_alerts` compares exactly the two most recent rows by timestamp regardless of source, and reports a drop if and only if (previous - latest)/previous is at least thresholdPercent/100 (the threshold fraction), reporting changePercent = (latest - previous)/previous * 100. -/
theorem c5_drop_detection (t : ℚ) (cutoff : ℕ) (rows : List PriceRecord)
    (latest previous : PriceRecord) (rest : List PriceRecord)
    (hhist : get_price_history cutoff rows = latest :: previous :: rest)
    (hp : 0 < previous.price) :
    ((get_price_alerts t cutoff rows).isSome ↔
      (previous.price - latest.price) / previous.price ≥ t / 100) ∧
    (∀ a, get_price_alerts t cutoff rows = some a →
      a.changePercent = (latest.price - previous.price) / previous.price * 100 ∧
      a.platform = latest.platform ∧ a.currentPrice = latest.price ∧
      a.previousPrice = previous.price) ∧
    (∀ r ∈ rows, cutoff ≤ r.scrapedAt → r.scrapedAt ≤ latest.scrapedAt) ∧
    (∀ r ∈ rest, r.scrapedAt ≤ previous.scrapedAt) := by
  have hkey : ((latest.price - previous.price) / previous.price * 100 ≤ -t) ↔
      (t / 100 ≤ (previous.price - latest.price) / previous.price) := by
    rw [div_mul_eq_mul_div, div_le_iff₀ hp, div_le_div_iff₀ (by norm_num : (0:ℚ) < 100) hp]
    constructor <;> intro h <;> linarith
  have hsorted : List.Sorted newerLe (latest :: previous :: rest) := by
    rw [← hhist]
    exact List.sorted_insertionSort newerLe _
  have heval : get_price_alerts t cutoff rows =
      if (latest.price - previous.price) / previous.price * 100 ≤ -t then
        some { platform := latest.platform, currentPrice := latest.price,
               previousPrice := previous.price,
               changePercent := (latest.price - previous.price) / previous.price * 100 }
      else none := by
    rw [get_price_alerts, hhist, price_drop_alert, if_pos hp]
  refine ⟨?_, ?_, ?_, ?_⟩
  · rw [heval]
    by_cases hc : (latest.price - previous.price) / previous.price * 100 ≤ -t
    · simp only [if_pos hc, Option.isSome_some, true_iff, ge_iff_le]
      exact hkey.mp hc
    · simp only [if_neg hc, Option.isSome_none, Bool.false_eq_true, false_iff, ge_iff_le]
      intro hcon
      exact hc (hkey.mpr hcon)
  · intro a ha
    rw [heval] at ha
    by_cases hc : (latest.price - previous.price) / previous.price * 100 ≤ -t
    · rw [if_pos hc] at ha
      injection ha with ha2
      rw [← ha2]
      exact ⟨rfl, rfl, rfl, rfl⟩
    · rw [if_neg hc] at ha
      exact Option.noConfusion ha
  · intro r hr hcut
    have hrin : r ∈ get_price_history cutoff rows := by
      rw [get_price_history, (List.perm_insertionSort newerLe _).mem_iff]
      exact List.mem_filter.mpr ⟨hr, by simpa using hcut⟩
    rw [hhist] at hrin
    rcases List.mem_cons.mp hrin with heq | htail
    · exact heq ▸ le_refl _
    · exact (List.sorted_cons.mp hsorted).1 r htail
  · intro r hr
    exact ((List.sorted_cons.mp (List.sorted_cons.mp hsorted).2).1) r hr

/-- C5 witness: history [A: 10 at t1, A: 8.5 at t2] with threshold percent 10 (fraction 0.10) yields a drop with changePercent = -15; history [A: 10 at t1, A: 9.6 at t2] yields none. -/
theorem c5_drop_detection_witness :
    get_price_alerts 10 0 rowsDrop15 =
      some { platform := "A", currentPrice := 17/2, previousPrice := 10, changePercent := -15 } ∧
    get_price_alerts 10 0 rowsDrop4 = none := by
  have hhist : get_price_history 0 rowsDrop15 =
      [{ platform := "A", price := 17/2, scrapedAt := 2 },
       { platform := "A", price := 10, scrapedAt := 1 }] := by
    simp +decide [get_price_history, rowsDrop15, newerLe]
  have h := c5_drop_detection 10 0 rowsDrop15 { platform := "A", price := 17/2, scrapedAt := 2 }
    { platform := "A", price := 10, scrapedAt := 1 } [] hhist (by norm_num)
  have hhist4 : get_price_history 0 rowsDrop4 =
      [{ platform := "A", price := 48/5, scrapedAt := 2 },
       { platform := "A", price := 10, scrapedAt := 1 }] := by
    simp +decide [get_price_history, rowsDrop4, newerLe]
  have h4 := c5_drop_detection 10 0 rowsDrop4 { platform := "A", price := 48/5, scrapedAt := 2 }
    { platform := "A", price := 10, scrapedAt := 1 } [] hhist4 (by norm_num)
  constructor
  · have hs : (get_price_alerts 10 0 rowsDrop15).isSome := h.1.mpr (by norm_num)
    obtain ⟨a, ha⟩ := Option.isSome_iff_exists.mp hs
    obtain ⟨hcp, hpl, hcur, hprev⟩ := h.2.1 a ha
    rw [ha]
    congr 1
    cases a
    simp only at hcp hpl hcur hprev
    rw [hcp, hpl, hcur, hprev]
    norm_num
  · have hs : ¬(get_price_alerts 10 0 rowsDrop4).isSome = true := by
      rw [h4.1]
      norm_num
    exact Option.not_isSome_iff_eq_none.mp hs

/-- C6: the unit-price normalizer divides the price by the quantity taken to the base unit (g and ml scaled by 1000 to the kg resp. L basis; kg, l and the count units as-is), and returns `none` rather than raising when the pattern does not match, the quantity is zero, or the unit is unrecognized; in particular normalize(20, "500g") = 40, normalize(10, "1kg") = 10 and normalize(5, "abc") = none. -/
theorem c6_unit_price_normalizer :
    calculate_unit_price 20 ("500g".toList) = some 40 ∧
    calculate_unit_price 10 ("1kg".toList) = some 10 ∧
    calculate_unit_price 5 ("abc".toList) = none ∧
    (∀ p : ℚ, calculate_unit_price p ("500g".toList) = some (p / 500 * 1000)) ∧
    (∀ p : ℚ, calculate_unit_price p ("2kg".toList) = some (p / 2)) ∧
    (∀ p : ℚ, calculate_unit_price p ("250ml".toList) = some (p / 250 * 1000)) ∧
    (∀ p : ℚ, calculate_unit_price p ("2l".toList) = some (p / 2)) ∧
    (∀ p : ℚ, calculate_unit_price p ("3pcs".toList) = some (p / 3)) ∧
    (∀ p : ℚ, calculate_unit_price p ("2pack".toList) = some (p / 2)) ∧
    (∀ p : ℚ, calculate_unit_price p ("4each".toList) = some (p / 4)) ∧
    calculate_unit_price 9 ("0g".toList) = none ∧
    calculate_unit_price 9 ("5oz".toList) = none := by
  refine ⟨?_, ?_, ?_, ?_, ?_, ?_, ?_, ?_, ?_, ?_, ?_, ?_⟩
  all_goals try intro p
  all_goals simp +decide [calculate_unit_price, parseQuantity, matchUnit, stripStr,
    lowerStr, lowerChar, isPySpace, digitsToNat]
  all_goals norm_num

/-- C7 counterexample: an active item that is in stock somewhere but whose in-stock entries all lack a price yields no recommendation at all, contradicting "exactly one recommendation per active item". -/
theorem c7_counterexample :
    is_available_anywhere itemStockNoPrice.availability = true ∧
    recommendations_for itemStockNoPrice = [] := by decide

/-- C7 amended: per active item - no source in stock gives exactly one `unavailable` recommendation; a best deal over a present nonzero `max_price` gives exactly one `over_budget` recommendation with no quantity or total; otherwise a best deal gives exactly one `available` recommendation with quantity = weekly target and total = best price times quantity; an item in stock somewhere with no priced in-stock entry yields no recommendation. -/
theorem c7_amended (it : WItem) :
    (is_available_anywhere it.availability = false →
      recommendations_for it = [{ status := RecStatus.unavailable }]) ∧
    (is_available_anywhere it.availability = true → get_best_deal it.availability = none →
      recommendations_for it = []) ∧
    (∀ bd, get_best_deal it.availability = some bd →
      ((∃ m, it.maxPrice = some m ∧ m ≠ 0 ∧ m < bd.2) →
        recommendations_for it =
          [{ status := RecStatus.overBudget, platform := some bd.1, price := some bd.2 }]) ∧
      (¬(∃ m, it.maxPrice = some m ∧ m ≠ 0 ∧ m < bd.2) →
        recommendations_for it =
          [{ status := RecStatus.available, platform := some bd.1, price := some bd.2,
             quantity := some it.weeklyTargetQty,
             total := some (bd.2 * (it.weeklyTargetQty : ℚ)) }])) := by
  refine ⟨?_, ?_, ?_⟩
  · intro h
    simp [recommendations_for, h]
  · intro h hb
    simp [recommendations_for, h, hb]
  · intro bd hbd
    have hav := best_deal_some_available _ bd hbd
    constructor
    · intro hex
      have hob : over_budget it.maxPrice bd.2 = true := (over_budget_iff _ _).mpr hex
      simp [recommendations_for, hav, hbd, hob]
    · intro hnex
      have hob : over_budget it.maxPrice bd.2 = false := by
        cases hb : over_budget it.maxPrice bd.2
        · rfl
        · exact absurd ((over_budget_iff _ _).mp hb) hnex
      simp [recommendations_for, hav, hbd, hob]

/-- C7 witness: the amended theorem applied to the four concrete configurations, including max price 10 against best price 12 (over budget) and max price 15 against best price 12 (available, total 24). -/
theorem c7_amended_witness :
    recommendations_for { availability := [] } = [{ status := RecStatus.unavailable }] ∧
    recommendations_for itemStockNoPrice = [] ∧
    recommendations_for { availability := snapAIn12, maxPrice := some 10 } =
      [{ status := RecStatus.overBudget, platform := some "A", price := some 12 }] ∧
    recommendations_for { availability := snapAIn12, maxPrice := some 15, weeklyTargetQty := 2 } =
      [{ status := RecStatus.available, platform := some "A", price := some 12,
         quantity := some 2, total := some 24 }] := by
  refine ⟨(c7_amended { availability := [] }).1 rfl,
    (c7_amended itemStockNoPrice).2.1 (by decide) (by decide), ?_, ?_⟩
  · have h := ((c7_amended { availability := snapAIn12, maxPrice := some 10 }).2.2
      ("A", 12) (by decide)).1 ⟨10, rfl, by norm_num, by norm_num⟩
    exact h
  · have h := ((c7_amended
      { availability := snapAIn12, maxPrice := some 15, weeklyTargetQty := 2 }).2.2
      ("A", 12) (by decide)).2 (by
        rintro ⟨m, hm, hmz, hlt⟩
        injection hm with hm2
        rw [← hm2] at hlt
        norm_num at hlt)
    rw [h]
    norm_num

/-- C8 counterexample: the snapshot diff is not idempotent for every item: with `notify_on_restock` unset the restock diff emits no alert, and with a zero drop threshold diffing a snapshot against itself emits a price-drop alert. -/
theorem c8_counterexample :
    check_alerts { notifyOnRestock := false, priceDropThreshold := 0 } snapAOut snapAIn12 = [] ∧
    check_alerts { notifyOnRestock := false, priceDropThreshold := 0 } snapAIn12 snapAIn12 =
      [{ type := AlertType.priceDrop, platform := "A", oldPrice := some 12, newPrice := some 12 }] := by
  constructor <;>
    norm_num [check_alerts, platform_alerts, lookup_status, truthy, snapAOut, snapAIn12]

/-- C8 amended: for an item with `notify_on_restock` set, diffing old {A: not in stock} against new {A: in stock, price 12} emits exactly one restock alert for A; and for an item with positive drop threshold, diffing any snapshot with duplicate-free keys against itself emits zero alerts. -/
theorem c8_amended (cfg : ItemCfg) (S : List (String × Status)) :
    (cfg.notifyOnRestock = true →
      check_alerts cfg snapAOut snapAIn12 =
        [{ type := AlertType.restock, platform := "A", newPrice := some 12 }]) ∧
    (0 < cfg.priceDropThreshold → (S.map Prod.fst).Nodup → check_alerts cfg S S = []) := by
  constructor
  · intro hR
    simp +decide [check_alerts, snapAOut, snapAIn12, platform_alerts, lookup_status, truthy, hR]
  · intro hth hnodup
    rw [check_alerts, List.flatMap_eq_nil_iff]
    intro x hx
    exact platform_alerts_self cfg S x.1 x.2 hth (lookup_self_of_nodup S hnodup x hx)

/-- C8 witness: the amended theorem applied to the default item configuration. -/
theorem c8_amended_witness :
    check_alerts {} snapAOut snapAIn12 =
      [{ type := AlertType.restock, platform := "A", newPrice := some 12 }] ∧
    check_alerts {} snapAIn12 snapAIn12 = [] :=
  ⟨(c8_amended {} snapAIn12).1 rfl,
   (c8_amended {} snapAIn12).2 (by norm_num [show ({} : ItemCfg).priceDropThreshold = 1/10 from rfl])
     (by decide)⟩

/-- C9: nothing serializes the diff/replace steps of overlapping check cycles of one item; two cycles that both read the baseline before either write (each runs with its own database session) each diff against the stale baseline and the restock alert double-fires, while serialized cycles fire it once. -/
theorem c9_unserialized_double_fire :
    raced_cycles_alerts {} snapAOut snapAIn12 snapAIn12 =
      [{ type := AlertType.restock, platform := "A", newPrice := some 12 },
       { type := AlertType.restock, platform := "A", newPrice := some 12 }] ∧
    serial_cycles_alerts {} snapAOut snapAIn12 snapAIn12 =
      [{ type := AlertType.restock, platform := "A", newPrice := some 12 }] := by
  constructor <;>
    norm_num [raced_cycles_alerts, serial_cycles_alerts, cycle_alerts, available_entries,
      check_alerts, platform_alerts, lookup_status, truthy, snapAOut, snapAIn12]

/-- C10: for a watchlist item whose brand is None or empty, the search-matching step selects the first listing returned by a platform unconditionally, because the empty string is a case-insensitive substring of every product name. -/
theorem c10_empty_brand_first_listing (prods : List Product) (pr : Product) :
    find_matching none prods = prods.head? ∧
    find_matching (some []) prods = prods.head? ∧
    (prods.head? = some pr →
      status_of_probe none (Except.ok prods) =
        { inStock := pr.inStock, price := some pr.price, error := none }) := by
  refine ⟨find_matching_empty_none prods, find_matching_empty_none prods, ?_⟩
  intro h
  simp [status_of_probe, find_matching_empty_none, h]

/-- C10 witness: the theorem applied to a concrete two-listing search result. -/
theorem c10_empty_brand_witness :
    find_matching none [prodA, prodB] = some prodA ∧
    status_of_probe none (Except.ok [prodA, prodB]) =
      { inStock := true, price := some 10, error := none } := by
  have h := c10_empty_brand_first_listing [prodA, prodB] prodA
  exact ⟨h.1.trans rfl, (h.2.2 rfl).trans (by decide)⟩

end Grocery
